import Mathlib

/-!
# Verification of `database/init_db.py`

Shallow embedding of the SQLite initialization script of the
interactive-trivia-challenge repository.

Modelling conventions:
* SQLite tables are Lean lists of row structures; `AUTOINCREMENT` id columns
  are modelled by per-table `next…Id` counters carried in the `DB` state
  (mirroring `sqlite_sequence`).  Timestamp columns (`created_at`,
  `updated_at`) are not modelled: no claim and no statement of the script
  reads them.
* Table and index existence (`CREATE TABLE IF NOT EXISTS`,
  `CREATE INDEX IF NOT EXISTS`) is modelled by boolean flags on `DB`;
  creation sets the flag, re-creation is a no-op on rows.
* `INSERT OR REPLACE` on `app_info` (whose `key` column is `UNIQUE`) is
  modelled by SQLite's documented REPLACE semantics: delete every row that
  conflicts on the unique key, then append the new row with a fresh id.
* Text files are modelled as `List String`, the file's content split at
  newline characters, each element one line (a final newline terminating the
  last line is implicit).  This is exactly the granularity at which the
  script's `re.MULTILINE` regex and its line-oriented writes operate.
* `os.path.abspath` is modelled as: a path starting with `/` is returned as
  is, otherwise it is joined to the current working directory.  (The
  additional lexical normalisation `normpath` performs is irrelevant to
  every claim and is not modelled.)
* Python's `sqlite3` transaction behaviour (default
  `isolation_level = ""`, i.e. legacy implicit-transaction control) is
  modelled explicitly for the transaction claims: an implicit `BEGIN` is
  issued before the first `INSERT`/`UPDATE`/`DELETE`/`REPLACE` statement
  when no transaction is open; DDL (`CREATE …`) executed while no
  transaction is open runs in autocommit mode and takes effect
  immediately; once a transaction is open every statement (DDL included,
  per the Python 3.6+ behaviour of never implicitly committing before
  DDL) runs inside it; `commit()` publishes the transaction;
  `close()` without commit rolls it back.
-/

/-- Row of the `app_info` table (timestamps omitted, see header). -/
structure AppInfoRow where
  id : Nat
  key : String
  value : String
deriving Repr, DecidableEq

/-- Row of the `users` table. -/
structure UserRow where
  id : Nat
  username : String
  email : String
deriving Repr, DecidableEq

/-- Row of the `trivia_questions` table. -/
structure QuestionRow where
  id : Nat
  code : String
  question_text : String
  category : Option String
  difficulty : Option String
  explanation : Option String
deriving Repr, DecidableEq

/-- Row of the `trivia_choices` table.  `is_correct` is the SQL integer the
script stores (`1` or `0`). -/
structure ChoiceRow where
  id : Nat
  question_id : Nat
  choice_text : String
  choice_order : Nat
  is_correct : Nat
deriving Repr, DecidableEq

/-- State of the SQLite database file: the four tables' rows, the
table/index existence flags, and the `AUTOINCREMENT` counters. -/
structure DB where
  appInfoTable : Bool
  usersTable : Bool
  questionsTable : Bool
  choicesTable : Bool
  idxChoicesQuestionId : Bool
  idxQuestionsCategory : Bool
  app_info : List AppInfoRow
  users : List UserRow
  questions : List QuestionRow
  choices : List ChoiceRow
  nextAppInfoId : Nat
  nextQuestionId : Nat
  nextChoiceId : Nat
deriving Repr, DecidableEq

/-- A database file that does not exist yet / has just been created empty.
SQLite `AUTOINCREMENT` ids start at 1. -/
def emptyDB : DB :=
  { appInfoTable := false
    usersTable := false
    questionsTable := false
    choicesTable := false
    idxChoicesQuestionId := false
    idxQuestionsCategory := false
    app_info := []
    users := []
    questions := []
    choices := []
    nextAppInfoId := 1
    nextQuestionId := 1
    nextChoiceId := 1 }

/-! ## Path resolver (`get_db_path_from_connection_file`, lines 28-56) -/

/-- `DB_NAME_FALLBACK = "myapp.db"` (line 24). -/
def DB_NAME_FALLBACK : String := "myapp.db"

/-- The literal part of the regex `^# File path:\s*(.+)$` (line 47). -/
def filePathMarker : String := "# File path:"

/-- A line matches `^# File path:\s*(.+)$` (with `re.MULTILINE`, `^`/`$`
anchor at line boundaries and `.` does not cross them) iff it starts with
the literal marker and at least one character follows it: `\s*` may match
the empty string and `.+` needs one character, which by backtracking may
itself be whitespace. -/
def lineMatches (l : String) : Bool :=
  decide (l.data.take filePathMarker.data.length = filePathMarker.data
    ∧ filePathMarker.data.length < l.data.length)

/-- The whitespace class of Python's `str.strip()` and of the regex `\s`
(ASCII part; no path in this repository carries exotic unicode spacing). -/
def isPyWS (c : Char) : Bool :=
  c == ' ' || c == '\t' || c == '\n' || c == '\r' || c == '\x0b' || c == '\x0c'

/-- Strip leading and trailing whitespace from a character list. -/
def trimChars (cs : List Char) : List Char :=
  ((cs.dropWhile isPyWS).reverse.dropWhile isPyWS).reverse

/-- The value the script extracts from a matching line: group 1 of the
regex followed by `.strip()` (line 53).  Greedy `\s*` plus `(.+)` plus
`strip` amounts to: drop the marker, trim whitespace on both sides. -/
def lineCapture (l : String) : String :=
  ⟨trimChars (l.data.drop filePathMarker.data.length)⟩

/-- `re.search` with `re.MULTILINE` over the whole content: the first line
matching the pattern yields the captured value (lines 47-53). -/
def findFilePathLine (content : List String) : Option String :=
  (content.find? lineMatches).map lineCapture

/-- Model of `os.path.abspath` relative to a current working directory
(normalisation of `.`/`..`/duplicate separators not modelled): a path is
absolute iff its first character is the separator `/`. -/
def abspath (cwd p : String) : String :=
  if p.data.head? = some '/' then p else cwd ++ "/" ++ p

/-- `get_db_path_from_connection_file` (lines 28-56).  The content of the
connection file is `none` when the file cannot be opened or read (the
`except` branch of line 42 catches any such error). -/
def get_db_path_from_connection_file (cwd : String)
    (content : Option (List String)) : Except String String :=
  match content with
  | none =>
      Except.error
        "Could not read db_connection.txt. It must exist and contain '# File path: ...'."
  | some ls =>
      match findFilePathLine ls with
      | none =>
          Except.error
            "db_connection.txt does not contain an authoritative '# File path: ...' line."
      | some v => Except.ok (abspath cwd v)

/-! ## Schema manager (`_create_base_schema`, `_create_trivia_schema`) -/

/-- `CREATE TABLE IF NOT EXISTS app_info …` (lines 70-79). -/
def createAppInfoTable (db : DB) : DB := { db with appInfoTable := true }

/-- `CREATE TABLE IF NOT EXISTS users …` (lines 82-91). -/
def createUsersTable (db : DB) : DB := { db with usersTable := true }

/-- `CREATE TABLE IF NOT EXISTS trivia_questions …` (lines 110-126). -/
def createQuestionsTable (db : DB) : DB := { db with questionsTable := true }

/-- `CREATE TABLE IF NOT EXISTS trivia_choices …` (lines 128-143). -/
def createChoicesTable (db : DB) : DB := { db with choicesTable := true }

/-- `CREATE INDEX IF NOT EXISTS idx_trivia_choices_question_id …` (line 146). -/
def createIdxChoicesQuestion (db : DB) : DB :=
  { db with idxChoicesQuestionId := true }

/-- `CREATE INDEX IF NOT EXISTS idx_trivia_questions_category …` (line 149). -/
def createIdxQuestionsCategory (db : DB) : DB :=
  { db with idxQuestionsCategory := true }

/-- `INSERT OR REPLACE INTO app_info (key, value) VALUES (?, ?)`
(lines 93-104): delete any row conflicting on the unique `key`, insert the
new row with a fresh `AUTOINCREMENT` id. -/
def upsertAppInfo (k v : String) (db : DB) : DB :=
  { db with
    app_info := db.app_info.filter (fun r => !(r.key == k))
      ++ [⟨db.nextAppInfoId, k, v⟩]
    nextAppInfoId := db.nextAppInfoId + 1 }

/-- `_create_base_schema` (lines 68-104). -/
def create_base_schema (db : DB) : DB :=
  upsertAppInfo "description"
    "SQLite DB for interactive trivia questions and sessions."
    (upsertAppInfo "version" "0.2.0"
      (upsertAppInfo "project_name" "interactive-trivia-challenge"
        (createUsersTable (createAppInfoTable db))))

/-- `_create_trivia_schema` (lines 107-151). -/
def create_trivia_schema (db : DB) : DB :=
  createIdxQuestionsCategory
    (createIdxChoicesQuestion (createChoicesTable (createQuestionsTable db)))

/-! ## Seed reconciler (`_question_exists`, `_insert_question_with_choices`,
`_seed_starter_questions`) -/

/-- `_question_exists` (lines 154-156). -/
def question_exists (db : DB) (code : String) : Bool :=
  db.questions.any (fun q => q.code == code)

/-- `_insert_question_with_choices` (lines 159-192).  When the question is
inserted, its freshly assigned id is what the `SELECT id FROM
trivia_questions WHERE code = ?` of line 182 returns: the existence check
just failed, so the new row is the unique row with this code. -/
def insert_question_with_choices (db : DB) (code question_text : String)
    (choices : List String) (correct_index : Nat)
    (category difficulty explanation : Option String) : DB :=
  if question_exists db code then db
  else
    let qid := db.nextQuestionId
    let newChoices := choices.enum.map (fun p =>
      (⟨db.nextChoiceId + p.1, qid, p.2, p.1,
        if p.1 == correct_index then 1 else 0⟩ : ChoiceRow))
    { db with
      questions := db.questions
        ++ [⟨qid, code, question_text, category, difficulty, explanation⟩]
      choices := db.choices ++ newChoices
      nextQuestionId := qid + 1
      nextChoiceId := db.nextChoiceId + choices.length }

/-- One entry of the in-code seed catalog (lines 201-261). -/
structure SeedEntry where
  code : String
  question_text : String
  choices : List String
  correct_index : Nat
  category : String
  difficulty : String
  explanation : String
deriving Repr, DecidableEq

/-- Catalog entry `GEN_001` (lines 202-210). -/
def entryGEN : SeedEntry :=
  { code := "GEN_001"
    question_text := "What is the capital city of France?"
    choices := ["Berlin", "Madrid", "Paris", "Rome"]
    correct_index := 2
    category := "Geography"
    difficulty := "Easy"
    explanation := "Paris is the capital and most populous city of France." }

/-- Catalog entry `SCI_001` (lines 211-219). -/
def entrySCI : SeedEntry :=
  { code := "SCI_001"
    question_text := "Which planet is known as the Red Planet?"
    choices := ["Venus", "Mars", "Jupiter", "Mercury"]
    correct_index := 1
    category := "Science"
    difficulty := "Easy"
    explanation := "Mars appears red due to iron oxide (rust) on its surface." }

/-- Catalog entry `CS_001` (lines 220-233). -/
def entryCS : SeedEntry :=
  { code := "CS_001"
    question_text := "In programming, what does 'HTML' stand for?"
    choices := ["HyperText Markup Language", "High Transfer Machine Language",
      "Hyperlink and Text Management Language", "Home Tool Markup Language"]
    correct_index := 0
    category := "Technology"
    difficulty := "Easy"
    explanation := "HTML stands for HyperText Markup Language." }

/-- Catalog entry `HIS_001` (lines 234-242). -/
def entryHIS : SeedEntry :=
  { code := "HIS_001"
    question_text := "Who was the first President of the United States?"
    choices := ["Thomas Jefferson", "John Adams", "George Washington",
      "James Madison"]
    correct_index := 2
    category := "History"
    difficulty := "Easy"
    explanation := "George Washington served as the first U.S. President from 1789 to 1797." }

/-- Catalog entry `MATH_001` (lines 243-251); the question text reproduces
the source's encoding artifact in the multiplication sign verbatim. -/
def entryMATH : SeedEntry :=
  { code := "MATH_001"
    question_text := "What is 9 Ã— 7?"
    choices := ["56", "63", "72", "49"]
    correct_index := 1
    category := "Math"
    difficulty := "Easy"
    explanation := "9 times 7 equals 63." }

/-- Catalog entry `POP_001` (lines 252-260). -/
def entryPOP : SeedEntry :=
  { code := "POP_001"
    question_text := "Which movie features the quote: 'May the Force be with you'?"
    choices := ["Star Wars", "The Matrix", "Harry Potter", "The Lord of the Rings"]
    correct_index := 0
    category := "Pop Culture"
    difficulty := "Easy"
    explanation := "The quote is famously associated with the Star Wars franchise." }

/-- The fixed seed catalog `starter_questions` (lines 201-261). -/
def starterQuestions : List SeedEntry :=
  [entryGEN, entrySCI, entryCS, entryHIS, entryMATH, entryPOP]

/-- Seeding one catalog entry: the call of lines 272-281.  The four plain
string metadata fields are passed into the `Optional` parameters. -/
def insertSeedEntry (e : SeedEntry) (db : DB) : DB :=
  insert_question_with_choices db e.code e.question_text e.choices
    e.correct_index (some e.category) (some e.difficulty) (some e.explanation)

/-- `_seed_starter_questions` (lines 195-281). -/
def seed_starter_questions (db : DB) : DB :=
  starterQuestions.foldl (fun db e => insertSeedEntry e db) db

/-- The database effect of one full initialization run, in statement order
of `main` (lines 322-328): base schema, trivia schema, seeding. -/
def initDB (db : DB) : DB :=
  seed_starter_questions (create_trivia_schema (create_base_schema db))

/-! ## Transaction model

The statements `main` issues between `sqlite3.connect` and `conn.commit()`
(line 328), with Python `sqlite3`'s legacy implicit-transaction control as
described in the header.  The `PRAGMA` of line 64, the `SELECT 1` of
line 319 and the statistics `SELECT`s read or configure only and are
omitted.  Each seed catalog entry contributes its `SELECT`-then-maybe-insert
sequence as one step: when the question exists only a `SELECT` runs (no
transaction is opened); otherwise its inserts are data-modifying statements
inside the transaction that is necessarily already open at that point. -/

/-- One SQL statement of the initialization sequence. -/
inductive SqlStmt where
  | createAppInfoT
  | createUsersT
  | upsertStmt (k v : String)
  | createQuestionsT
  | createChoicesT
  | createIdxChoicesQ
  | createIdxQuestionsCat
  | seedStmt (e : SeedEntry)
deriving Repr, DecidableEq

/-- The effect a statement has on the database contents it sees. -/
def stmtEffect : SqlStmt → DB → DB
  | .createAppInfoT => createAppInfoTable
  | .createUsersT => createUsersTable
  | .upsertStmt k v => upsertAppInfo k v
  | .createQuestionsT => createQuestionsTable
  | .createChoicesT => createChoicesTable
  | .createIdxChoicesQ => createIdxChoicesQuestion
  | .createIdxQuestionsCat => createIdxQuestionsCategory
  | .seedStmt e => insertSeedEntry e

/-- Whether the statement is DDL (`CREATE …`), which Python `sqlite3` does
not open an implicit transaction for. -/
def isDDL : SqlStmt → Bool
  | .createAppInfoT => true
  | .createUsersT => true
  | .upsertStmt _ _ => false
  | .createQuestionsT => true
  | .createChoicesT => true
  | .createIdxChoicesQ => true
  | .createIdxQuestionsCat => true
  | .seedStmt _ => false

/-- A `sqlite3` connection: the durable (committed) database file state and
the pending transaction's view, when a transaction is open. -/
structure Conn where
  committed : DB
  txn : Option DB
deriving Repr, DecidableEq

/-- The database contents statements on this connection currently see. -/
def connView (c : Conn) : DB := c.txn.getD c.committed

/-- Execute DDL: autocommit when no transaction is open, otherwise run
inside the open transaction (Python 3.6+ never implicitly commits first). -/
def applyDDL (c : Conn) (f : DB → DB) : Conn :=
  match c.txn with
  | none => { c with committed := f c.committed }
  | some t => { c with txn := some (f t) }

/-- Execute a data-modifying statement: an implicit `BEGIN` opens a
transaction if none is open, and the statement runs inside it. -/
def applyDML (c : Conn) (f : DB → DB) : Conn :=
  { c with txn := some (f (connView c)) }

/-- Execute one statement of the initialization sequence. -/
def execStmt (c : Conn) (s : SqlStmt) : Conn :=
  match s with
  | .seedStmt e =>
      if question_exists (connView c) e.code then c
      else applyDML c (insertSeedEntry e)
  | s => if isDDL s then applyDDL c (stmtEffect s) else applyDML c (stmtEffect s)

/-- `conn.commit()`: publish the pending transaction. -/
def commitConn (c : Conn) : Conn := ⟨connView c, none⟩

/-- The statement sequence of one run of `main`, in source order
(lines 322-326 expanded). -/
def initStmts : List SqlStmt :=
  [SqlStmt.createAppInfoT, SqlStmt.createUsersT,
    SqlStmt.upsertStmt "project_name" "interactive-trivia-challenge",
    SqlStmt.upsertStmt "version" "0.2.0",
    SqlStmt.upsertStmt "description"
      "SQLite DB for interactive trivia questions and sessions.",
    SqlStmt.createQuestionsT, SqlStmt.createChoicesT,
    SqlStmt.createIdxChoicesQ, SqlStmt.createIdxQuestionsCat]
  ++ starterQuestions.map SqlStmt.seedStmt

/-- Run initialization with an optional injected database error: with
`failAt = some n`, the `n`-th statement — or, when `n = initStmts.length`,
the `commit()` itself — raises.  The exception propagates out of `main`'s
`try`, the `finally` of line 344 closes the connection and the pending
transaction rolls back.  Returns the durable database file state. -/
def runInitTxn (db : DB) (failAt : Option Nat) : DB :=
  match failAt with
  | none => (commitConn (initStmts.foldl execStmt ⟨db, none⟩)).committed
  | some n =>
      if n < initStmts.length then
        ((initStmts.take n).foldl execStmt ⟨db, none⟩).committed
      else if n = initStmts.length then
        (initStmts.foldl execStmt ⟨db, none⟩).committed
      else (commitConn (initStmts.foldl execStmt ⟨db, none⟩)).committed

/-- The row contents of the database, bundled: what the atomicity claims
quantify over (table/index existence flags and id counters aside). -/
def dbRows (db : DB) : List AppInfoRow × List UserRow × List QuestionRow × List ChoiceRow :=
  (db.app_info, db.users, db.questions, db.choices)

/-! ## Orchestrator model (`main`, lines 291-367, and
`_write_visualizer_env`, lines 284-288)

The world is the process' observable environment: the current working
directory, the two text files and the database file.  Database errors are
the subject of the transaction model above; `mainModel` models the
filesystem error cases, with one fault flag per filesystem side effect
that happens after the commit. -/

/-- Observable environment of one run.  A file whose content is `none`
does not exist (or cannot be read). -/
structure World where
  cwd : String
  connFileContent : Option (List String)
  envFileContent : Option (List String)
  db : DB
deriving Repr, DecidableEq

/-- Injected filesystem faults for the three post-commit side effects:
`os.makedirs("db_visualizer")` (line 286), the environment-file write
(lines 287-288), and the reference-file write (lines 355-359). -/
structure FsFaults where
  mkdirFails : Bool
  envWriteFails : Bool
  refWriteFails : Bool
deriving Repr, DecidableEq

/-- Lines 298-305 of `main`: resolve the database path from
`db_connection.txt`, falling back to `DB_NAME_FALLBACK` (made absolute
against the current working directory) on any resolver error, and record
whether the fallback was used. -/
def resolveDbPath (w : World) : String × Bool :=
  match get_db_path_from_connection_file w.cwd w.connFileContent with
  | Except.ok p => (p, false)
  | Except.error _ => (abspath w.cwd DB_NAME_FALLBACK, true)

/-- Content `_write_visualizer_env` writes (line 288), as its single line. -/
def envFileLines (p : String) : List String :=
  ["export SQLITE_DB=\"" ++ p ++ "\""]

/-- Content `main` writes to `db_connection.txt` after a fallback
(lines 356-359), as its four lines. -/
def connFileLines (p : String) : List String :=
  ["# SQLite connection methods:",
    "# Python: sqlite3.connect('" ++ p ++ "')",
    "# Connection string: sqlite:///" ++ p,
    "# File path: " ++ p]

/-- `main` (lines 291-367) with no database error: resolve the path, run
schema creation and seeding, commit, then perform the filesystem side
effects.  `_write_visualizer_env` is called outside any `try`/`except`
(line 348): a directory-creation or environment-file write fault raises
out of `main`, returning `Except.error` with the world as it stands (the
commit already durable).  The reference-file write (only on fallback) is
wrapped in `try`/`except` (lines 353-362): its fault is caught, a warning
is printed and the run completes. -/
def mainModel (w : World) (faults : FsFaults) : Except World World :=
  let r := resolveDbPath w
  let w1 : World := { w with db := initDB w.db }
  if faults.mkdirFails || faults.envWriteFails then Except.error w1
  else
    let w2 : World := { w1 with envFileContent := some (envFileLines r.1) }
    if r.2 && !faults.refWriteFails then
      Except.ok { w2 with connFileContent := some (connFileLines r.1) }
    else Except.ok w2

/-- Number of `app_info` rows holding key `k`. -/
def countKey (k : String) (l : List AppInfoRow) : Nat :=
  l.countP (fun r => r.key == k)

/-- A fresh clone: no reference file, no environment file, no database. -/
def sampleWorldNoRef : World :=
  { cwd := "/cwd"
    connFileContent := none
    envFileContent := none
    db := emptyDB }

/-- The world `sampleWorldNoRef` after one fault-free run. -/
def sampleWorldNoRefDone : World :=
  { cwd := "/cwd"
    connFileContent := some (connFileLines "/cwd/myapp.db")
    envFileContent := some (envFileLines "/cwd/myapp.db")
    db := initDB emptyDB }

/-- A world whose reference file holds an authoritative absolute path. -/
def sampleWorldCustomRef : World :=
  { cwd := "/cwd"
    connFileContent := some ["# File path: /tmp/x/custom.db"]
    envFileContent := none
    db := emptyDB }

/-! ## Helper lemmas -/

@[simp]
lemma questions_upsertAppInfo (k v : String) (db : DB) :
    (upsertAppInfo k v db).questions = db.questions := rfl

@[simp]
lemma choices_upsertAppInfo (k v : String) (db : DB) :
    (upsertAppInfo k v db).choices = db.choices := rfl

@[simp]
lemma users_upsertAppInfo (k v : String) (db : DB) :
    (upsertAppInfo k v db).users = db.users := rfl

@[simp]
lemma app_info_upsertAppInfo (k v : String) (db : DB) :
    (upsertAppInfo k v db).app_info
      = db.app_info.filter (fun r => !(r.key == k)) ++ [⟨db.nextAppInfoId, k, v⟩] := rfl

@[simp]
lemma questions_create_base_schema (db : DB) :
    (create_base_schema db).questions = db.questions := rfl

@[simp]
lemma choices_create_base_schema (db : DB) :
    (create_base_schema db).choices = db.choices := rfl

@[simp]
lemma users_create_base_schema (db : DB) :
    (create_base_schema db).users = db.users := rfl

@[simp]
lemma questions_create_trivia_schema (db : DB) :
    (create_trivia_schema db).questions = db.questions := rfl

@[simp]
lemma choices_create_trivia_schema (db : DB) :
    (create_trivia_schema db).choices = db.choices := rfl

@[simp]
lemma users_create_trivia_schema (db : DB) :
    (create_trivia_schema db).users = db.users := rfl

@[simp]
lemma app_info_create_trivia_schema (db : DB) :
    (create_trivia_schema db).app_info = db.app_info := rfl

/-- `_insert_question_with_choices` skips entirely when the code exists. -/
lemma insert_skip (db : DB) (code question_text : String) (choices : List String)
    (correct_index : Nat) (category difficulty explanation : Option String)
    (h : question_exists db code = true) :
    insert_question_with_choices db code question_text choices correct_index
      category difficulty explanation = db := by
  simp [insert_question_with_choices, h]

lemma insertSeedEntry_skip (e : SeedEntry) (db : DB)
    (h : question_exists db e.code = true) : insertSeedEntry e db = db :=
  insert_skip _ _ _ _ _ _ _ _ h

@[simp]
lemma app_info_insertSeedEntry (e : SeedEntry) (db : DB) :
    (insertSeedEntry e db).app_info = db.app_info := by
  unfold insertSeedEntry insert_question_with_choices
  split <;> rfl

@[simp]
lemma users_insertSeedEntry (e : SeedEntry) (db : DB) :
    (insertSeedEntry e db).users = db.users := by
  unfold insertSeedEntry insert_question_with_choices
  split <;> rfl

lemma question_exists_congr (d d' : DB) (c : String)
    (h : d.questions = d'.questions) : question_exists d c = question_exists d' c := by
  unfold question_exists
  rw [h]

/-- After seeding entry `e`, a question with `e.code` exists. -/
lemma question_exists_insertSeedEntry_self (e : SeedEntry) (db : DB) :
    question_exists (insertSeedEntry e db) e.code = true := by
  unfold insertSeedEntry insert_question_with_choices
  split
  · assumption
  · simp [question_exists]

/-- Seeding an entry never removes an existing question code. -/
lemma question_exists_insertSeedEntry_mono (e : SeedEntry) (db : DB) (c : String)
    (h : question_exists db c = true) :
    question_exists (insertSeedEntry e db) c = true := by
  unfold insertSeedEntry insert_question_with_choices
  split
  · exact h
  · simp only [question_exists, List.any_append, Bool.or_eq_true]
    exact Or.inl h

lemma question_exists_foldl_mono (l : List SeedEntry) (db : DB) (c : String)
    (h : question_exists db c = true) :
    question_exists (l.foldl (fun db e => insertSeedEntry e db) db) c = true := by
  induction l generalizing db with
  | nil => exact h
  | cons e t ih => exact ih _ (question_exists_insertSeedEntry_mono e db c h)

/-- After folding the seeder over a catalog, every catalog code exists. -/
lemma question_exists_foldl_mem (l : List SeedEntry) (db : DB) (e : SeedEntry)
    (he : e ∈ l) :
    question_exists (l.foldl (fun db e => insertSeedEntry e db) db) e.code = true := by
  induction l generalizing db with
  | nil => cases he
  | cons a t ih =>
      rcases List.mem_cons.mp he with h | h
      · subst h
        exact question_exists_foldl_mono t _ e.code
          (question_exists_insertSeedEntry_self e db)
      · exact ih _ h

/-- Folding the seeder over a catalog whose codes all exist is a no-op. -/
lemma foldl_insertSeedEntry_noop (l : List SeedEntry) (db : DB)
    (h : ∀ e ∈ l, question_exists db e.code = true) :
    l.foldl (fun db e => insertSeedEntry e db) db = db := by
  induction l with
  | nil => rfl
  | cons a t ih =>
      have ha : insertSeedEntry a db = db :=
        insertSeedEntry_skip a db (h a (List.mem_cons_self a t))
      simpa [ha] using ih fun e he => h e (List.mem_cons_of_mem a he)

lemma app_info_seed_starter_questions (db : DB) :
    (seed_starter_questions db).app_info = db.app_info := by
  unfold seed_starter_questions
  generalize starterQuestions = l
  induction l generalizing db with
  | nil => rfl
  | cons a t ih => simpa using ih (insertSeedEntry a db)

lemma users_seed_starter_questions (db : DB) :
    (seed_starter_questions db).users = db.users := by
  unfold seed_starter_questions
  generalize starterQuestions = l
  induction l generalizing db with
  | nil => rfl
  | cons a t ih => simpa using ih (insertSeedEntry a db)

lemma length_filter_key (k : String) (l : List AppInfoRow) :
    (l.filter (fun r => !(r.key == k))).length + countKey k l = l.length := by
  induction l with
  | nil => rfl
  | cons r t ih =>
      by_cases h : r.key = k
      · simp [countKey, List.countP_cons, h] at ih ⊢
        omega
      · have hb : (r.key == k) = false := beq_false_of_ne h
        simp [countKey, List.countP_cons, hb] at ih ⊢
        omega

lemma countKey_upsert_self (k v : String) (db : DB) :
    countKey k (upsertAppInfo k v db).app_info = 1 := by
  simp only [app_info_upsertAppInfo, countKey, List.countP_append]
  have h0 : (db.app_info.filter (fun r => !(r.key == k))).countP
      (fun r => r.key == k) = 0 := by
    rw [List.countP_eq_zero]
    intro r hr
    have := (List.mem_filter.mp hr).2
    simpa using this
  simp [h0, List.countP_cons]

lemma countKey_upsert_other (k k' v : String) (db : DB) (h : k' ≠ k) :
    countKey k' (upsertAppInfo k v db).app_info = countKey k' db.app_info := by
  simp only [app_info_upsertAppInfo, countKey, List.countP_append]
  have h1 : List.countP (fun r => r.key == k') [(⟨db.nextAppInfoId, k, v⟩ : AppInfoRow)] = 0 := by
    simp [List.countP_cons, beq_false_of_ne (Ne.symm h)]
  have h2 : (db.app_info.filter (fun r => !(r.key == k))).countP (fun r => r.key == k')
      = db.app_info.countP (fun r => (r.key == k') && !(r.key == k)) :=
    List.countP_filter _ _ _
  have h3 : db.app_info.countP (fun r => (r.key == k') && !(r.key == k))
      = db.app_info.countP (fun r => r.key == k') := by
    apply List.countP_congr
    intro r _
    by_cases hk : r.key = k'
    · rw [hk]
      simp [beq_false_of_ne h]
    · simp [beq_false_of_ne hk]
  rw [h1, h2, h3]
  omega

lemma length_upsert_of_countKey_one (k v : String) (db : DB)
    (h : countKey k db.app_info = 1) :
    (upsertAppInfo k v db).app_info.length = db.app_info.length := by
  have := length_filter_key k db.app_info
  simp only [app_info_upsertAppInfo, List.length_append, List.length_cons,
    List.length_nil]
  omega

/-! ## Claim theorems -/

/-- Seeding is a no-op on a database where every catalog code exists, so a
repeat initialization only re-runs schema creation and the app_info
upserts. -/
lemma initDB_eq_schemas_of_seeded (d1 : DB)
    (hex : ∀ e ∈ starterQuestions, question_exists d1 e.code = true) :
    initDB d1 = create_trivia_schema (create_base_schema d1) := by
  unfold initDB seed_starter_questions
  apply foldl_insertSeedEntry_noop
  intro e he
  have hq : question_exists (create_trivia_schema (create_base_schema d1)) e.code
      = question_exists d1 e.code :=
    question_exists_congr _ d1 e.code (by simp)
  rw [hq]
  exact hex e he

/-- After one initialization, every seed catalog code exists. -/
lemma question_exists_initDB (db : DB) (e : SeedEntry)
    (he : e ∈ starterQuestions) : question_exists (initDB db) e.code = true :=
  question_exists_foldl_mem starterQuestions
    (create_trivia_schema (create_base_schema db)) e he

/-- Each of the three metadata keys occurs exactly once after the base
schema's upserts. -/
lemma countKey_create_base_schema (db : DB) :
    countKey "project_name" (create_base_schema db).app_info = 1 ∧
    countKey "version" (create_base_schema db).app_info = 1 ∧
    countKey "description" (create_base_schema db).app_info = 1 := by
  unfold create_base_schema
  refine ⟨?_, ?_, ?_⟩
  · rw [countKey_upsert_other _ _ _ _ (by decide),
      countKey_upsert_other _ _ _ _ (by decide)]
    exact countKey_upsert_self _ _ _
  · rw [countKey_upsert_other _ _ _ _ (by decide)]
    exact countKey_upsert_self _ _ _
  · exact countKey_upsert_self _ _ _

/-- The three `INSERT OR REPLACE` statements preserve the `app_info` row
count when each key is already present exactly once. -/
lemma length_app_info_create_base_schema (d1 : DB)
    (h1 : countKey "project_name" d1.app_info = 1)
    (h2 : countKey "version" d1.app_info = 1)
    (h3 : countKey "description" d1.app_info = 1) :
    (create_base_schema d1).app_info.length = d1.app_info.length := by
  unfold create_base_schema
  have hA : (createUsersTable (createAppInfoTable d1)).app_info = d1.app_info := rfl
  have l1 : (upsertAppInfo "project_name" "interactive-trivia-challenge"
      (createUsersTable (createAppInfoTable d1))).app_info.length
      = d1.app_info.length := by
    rw [length_upsert_of_countKey_one _ _ _ (by rw [hA]; exact h1), hA]
  have c2 : countKey "version" (upsertAppInfo "project_name"
      "interactive-trivia-challenge"
      (createUsersTable (createAppInfoTable d1))).app_info = 1 := by
    rw [countKey_upsert_other _ _ _ _ (by decide), hA]
    exact h2
  have l2 : (upsertAppInfo "version" "0.2.0"
      (upsertAppInfo "project_name" "interactive-trivia-challenge"
        (createUsersTable (createAppInfoTable d1)))).app_info.length
      = d1.app_info.length := by
    rw [length_upsert_of_countKey_one _ _ _ c2, l1]
  have c3 : countKey "description" (upsertAppInfo "version" "0.2.0"
      (upsertAppInfo "project_name" "interactive-trivia-challenge"
        (createUsersTable (createAppInfoTable d1)))).app_info = 1 := by
    rw [countKey_upsert_other _ _ _ _ (by decide),
      countKey_upsert_other _ _ _ _ (by decide), hA]
    exact h3
  rw [length_upsert_of_countKey_one _ _ _ c3, l2]

lemma app_info_initDB (db : DB) :
    (initDB db).app_info = (create_base_schema db).app_info := by
  unfold initDB
  rw [app_info_seed_starter_questions, app_info_create_trivia_schema]

/-- C1: Running the full initialization (schema creation plus seeding)
twice in succession leaves every table's row count after the second run
identical to its row count after the first run: the second run inserts no
new question, choice, user, or app_info rows. -/
theorem initialization_twice_row_counts_eq (db : DB) :
    (initDB (initDB db)).app_info.length = (initDB db).app_info.length ∧
    (initDB (initDB db)).users.length = (initDB db).users.length ∧
    (initDB (initDB db)).questions.length = (initDB db).questions.length ∧
    (initDB (initDB db)).choices.length = (initDB db).choices.length := by
  have hskip : initDB (initDB db)
      = create_trivia_schema (create_base_schema (initDB db)) :=
    initDB_eq_schemas_of_seeded (initDB db)
      (fun e he => question_exists_initDB db e he)
  have happ : (initDB db).app_info = (create_base_schema db).app_info :=
    app_info_initDB db
  obtain ⟨h1, h2, h3⟩ := countKey_create_base_schema db
  refine ⟨?_, ?_, ?_, ?_⟩
  · rw [hskip, app_info_create_trivia_schema]
    apply length_app_info_create_base_schema (initDB db)
    · rw [countKey, happ]
      exact h1
    · rw [countKey, happ]
      exact h2
    · rw [countKey, happ]
      exact h3
  · rw [hskip, users_create_trivia_schema, users_create_base_schema]
  · rw [hskip, questions_create_trivia_schema, questions_create_base_schema]
  · rw [hskip, choices_create_trivia_schema, choices_create_base_schema]

/-- C3: after initialization of an empty database, every seed catalog
entry's question carries its catalog choices in catalog list order with
`choice_order` exactly `0..n-1`, and exactly one child choice has the
correctness flag set — the one at the catalog's designated correct index. -/
theorem seeded_choices_wellformed :
    ∀ e ∈ starterQuestions,
      ∃ q ∈ (initDB emptyDB).questions, q.code = e.code ∧
        (((initDB emptyDB).choices.filter (fun c => c.question_id == q.id)).map
          (fun c => c.choice_text)) = e.choices ∧
        (((initDB emptyDB).choices.filter (fun c => c.question_id == q.id)).map
          (fun c => c.choice_order)) = List.range e.choices.length ∧
        (((initDB emptyDB).choices.filter
            (fun c => c.question_id == q.id && c.is_correct == 1)).map
          (fun c => c.choice_order)) = [e.correct_index] := by decide

/-- Witness for C3 at the catalog entry `GEN_001`. -/
theorem seeded_choices_wellformed_witness :
    ∃ q ∈ (initDB emptyDB).questions, q.code = entryGEN.code ∧
      (((initDB emptyDB).choices.filter (fun c => c.question_id == q.id)).map
        (fun c => c.choice_text)) = entryGEN.choices ∧
      (((initDB emptyDB).choices.filter (fun c => c.question_id == q.id)).map
        (fun c => c.choice_order)) = List.range entryGEN.choices.length ∧
      (((initDB emptyDB).choices.filter
          (fun c => c.question_id == q.id && c.is_correct == 1)).map
        (fun c => c.choice_order)) = [entryGEN.correct_index] :=
  seeded_choices_wellformed entryGEN (by decide)

/-- C4: when a question row with the given code already exists, the seeder
for that entry performs no insert or update at all — the database state is
returned unmodified (so no duplicate question rows and no duplicate code
values can arise). -/
theorem insert_existing_code_noop (db : DB) (code question_text : String)
    (choices : List String) (correct_index : Nat)
    (category difficulty explanation : Option String)
    (h : question_exists db code = true) :
    insert_question_with_choices db code question_text choices correct_index
      category difficulty explanation = db := by
  simp [insert_question_with_choices, h]

/-- Witness for C4: re-seeding `GEN_001` into an already-initialized
database is a no-op. -/
theorem insert_existing_code_noop_witness :
    question_exists (initDB emptyDB) "GEN_001" = true ∧
    insert_question_with_choices (initDB emptyDB) "GEN_001"
      "What is the capital city of France?" ["Berlin", "Madrid", "Paris", "Rome"]
      2 (some "Geography") (some "Easy") none = initDB emptyDB :=
  ⟨by decide, insert_existing_code_noop _ _ _ _ _ _ _ _ (by decide)⟩

/-! ### Transaction-model lemmas -/

/-- No single statement changes the durable row contents: DDL before the
transaction opens touches only table/index existence, everything else runs
inside the pending transaction. -/
lemma dbRows_committed_execStmt (c : Conn) (s : SqlStmt) :
    dbRows (execStmt c s).committed = dbRows c.committed := by
  cases s with
  | seedStmt e =>
      simp only [execStmt]
      split
      · rfl
      · rfl
  | upsertStmt k v => rfl
  | createAppInfoT =>
      unfold execStmt applyDDL
      cases c.txn <;> rfl
  | createUsersT =>
      unfold execStmt applyDDL
      cases c.txn <;> rfl
  | createQuestionsT =>
      unfold execStmt applyDDL
      cases c.txn <;> rfl
  | createChoicesT =>
      unfold execStmt applyDDL
      cases c.txn <;> rfl
  | createIdxChoicesQ =>
      unfold execStmt applyDDL
      cases c.txn <;> rfl
  | createIdxQuestionsCat =>
      unfold execStmt applyDDL
      cases c.txn <;> rfl

lemma dbRows_committed_foldl (l : List SqlStmt) (c : Conn) :
    dbRows ((l.foldl execStmt c).committed) = dbRows c.committed := by
  induction l generalizing c with
  | nil => rfl
  | cons s t ih => rw [List.foldl_cons, ih, dbRows_committed_execStmt]

/-- Executing a statement advances the connection's view by exactly the
statement's database effect. -/
lemma connView_execStmt (c : Conn) (s : SqlStmt) :
    connView (execStmt c s) = stmtEffect s (connView c) := by
  cases s with
  | seedStmt e =>
      simp only [execStmt]
      split
      next hq =>
        show connView c = stmtEffect (SqlStmt.seedStmt e) (connView c)
        simp only [stmtEffect]
        rw [insertSeedEntry_skip e _ hq]
      next => rfl
  | upsertStmt k v => rfl
  | createAppInfoT =>
      unfold execStmt applyDDL
      cases htxn : c.txn <;> simp [connView, htxn, stmtEffect, isDDL]
  | createUsersT =>
      unfold execStmt applyDDL
      cases htxn : c.txn <;> simp [connView, htxn, stmtEffect, isDDL]
  | createQuestionsT =>
      unfold execStmt applyDDL
      cases htxn : c.txn <;> simp [connView, htxn, stmtEffect, isDDL]
  | createChoicesT =>
      unfold execStmt applyDDL
      cases htxn : c.txn <;> simp [connView, htxn, stmtEffect, isDDL]
  | createIdxChoicesQ =>
      unfold execStmt applyDDL
      cases htxn : c.txn <;> simp [connView, htxn, stmtEffect, isDDL]
  | createIdxQuestionsCat =>
      unfold execStmt applyDDL
      cases htxn : c.txn <;> simp [connView, htxn, stmtEffect, isDDL]

lemma connView_foldl (l : List SqlStmt) (c : Conn) :
    connView (l.foldl execStmt c) = l.foldl (fun db s => stmtEffect s db) (connView c) := by
  induction l generalizing c with
  | nil => rfl
  | cons s t ih => rw [List.foldl_cons, ih, connView_execStmt, List.foldl_cons]

/-- The fault-free statement run commits exactly `initDB`. -/
lemma runInitTxn_none_eq_initDB (db : DB) : runInitTxn db none = initDB db := by
  have h0 : runInitTxn db none
      = connView (initStmts.foldl execStmt ⟨db, none⟩) := rfl
  rw [h0, connView_foldl, initStmts, List.foldl_append, List.foldl_map]
  rfl

/-- C2 (amended): an error at any statement — or at the commit itself —
rolls the pending transaction back, leaving every table's rows (and the id
counters) exactly as before the run; only autocommitted DDL (the `app_info`
and `users` table creation, which precede the first data-modifying
statement) can survive such an error.  Without an error the run commits
exactly the full schema-plus-seed effect. -/
theorem txn_rows_atomic (db : DB) (n : Nat) (h : n ≤ initStmts.length) :
    dbRows (runInitTxn db (some n)) = dbRows db ∧
    runInitTxn db none = initDB db := by
  constructor
  · have h0 : runInitTxn db (some n)
        = if n < initStmts.length then
            ((initStmts.take n).foldl execStmt ⟨db, none⟩).committed
          else if n = initStmts.length then
            (initStmts.foldl execStmt ⟨db, none⟩).committed
          else (commitConn (initStmts.foldl execStmt ⟨db, none⟩)).committed := rfl
    rw [h0]
    rcases Nat.lt_or_ge n initStmts.length with h' | h'
    · rw [if_pos h']
      exact dbRows_committed_foldl _ _
    · have he : n = initStmts.length := Nat.le_antisymm h h'
      rw [if_neg (by omega), if_pos he]
      exact dbRows_committed_foldl _ _
  · exact runInitTxn_none_eq_initDB db

/-- Witness for the amended C2: a failure at statement 3 (the first
`INSERT OR REPLACE`) of a run on an empty database. -/
theorem txn_rows_atomic_witness :
    3 ≤ initStmts.length ∧
    (dbRows (runInitTxn emptyDB (some 3)) = dbRows emptyDB ∧
      runInitTxn emptyDB none = initDB emptyDB) :=
  ⟨by decide, txn_rows_atomic emptyDB 3 (by decide)⟩

/-- C2 counterexample: statement 2 is executed before the commit, yet a
database error raised there does not leave the database file exactly in
its pre-run state — the `app_info` and `users` tables created by the two
autocommitted DDL statements survive the rollback. -/
theorem txn_failure_not_pristine :
    2 < initStmts.length ∧
    runInitTxn emptyDB (some 2) ≠ emptyDB ∧
    (runInitTxn emptyDB (some 2)).appInfoTable = true ∧
    (runInitTxn emptyDB (some 2)).usersTable = true ∧
    emptyDB.appInfoTable = false := by decide

/-! ### Resolver and orchestrator lemmas -/

/-- A line consisting of the marker, a space, and any path matches the
pattern. -/
lemma lineMatches_marker_append (p : String) :
    lineMatches ("# File path: " ++ p) = true := by
  simp only [lineMatches, decide_eq_true_eq]
  constructor
  · rw [String.data_append, List.take_append_of_le_length (by decide)]
    decide
  · rw [String.data_append, List.length_append]
    have h13 : ("# File path: ".data).length = 13 := by decide
    have h12 : filePathMarker.data.length = 12 := by decide
    omega

/-- No line matches the pattern exactly when the whole-content search
fails. -/
lemma findFilePathLine_eq_none_iff (ls : List String) :
    findFilePathLine ls = none ↔ ∀ l ∈ ls, lineMatches l = false := by
  simp [findFilePathLine, List.find?_eq_none]

/-- `find?` returns the head of `filter`. -/
lemma find?_eq_head_of_filter {α : Type} (p : α → Bool) (l : List α) (a : α)
    (t : List α) (h : l.filter p = a :: t) : l.find? p = some a := by
  induction l generalizing t with
  | nil => cases h
  | cons x xs ih =>
      by_cases hx : p x
      · rw [List.filter_cons_of_pos hx] at h
        rw [List.find?_cons_of_pos _ hx]
        cases h
        rfl
      · rw [List.filter_cons_of_neg hx] at h
        rw [List.find?_cons_of_neg _ hx]
        exact ih _ h

/-- C5: the resolver returns the absolute form of the value captured from
the first matching `# File path:` line, and fails in exactly two cases:
the file cannot be read, or no line of its content matches the pattern. -/
theorem resolver_spec (cwd : String) (content : Option (List String)) :
    ((get_db_path_from_connection_file cwd content).isOk = false
      ↔ content = none
        ∨ ∃ ls, content = some ls ∧ ∀ l ∈ ls, lineMatches l = false) ∧
    (∀ ls v, content = some ls → findFilePathLine ls = some v →
      get_db_path_from_connection_file cwd content
        = Except.ok (abspath cwd v)) := by
  constructor
  · cases content with
    | none =>
        apply iff_of_true
        · rfl
        · exact Or.inl rfl
    | some ls =>
        cases hf : findFilePathLine ls with
        | none =>
            apply iff_of_true
            · simp [get_db_path_from_connection_file, hf, Except.isOk, Except.toBool]
            · exact Or.inr ⟨ls, rfl, (findFilePathLine_eq_none_iff ls).mp hf⟩
        | some v =>
            apply iff_of_false
            · simp [get_db_path_from_connection_file, hf, Except.isOk, Except.toBool]
            · rintro (h | ⟨ls', hls', hall⟩)
              · cases h
              · cases hls'
                rw [(findFilePathLine_eq_none_iff ls).mpr hall] at hf
                cases hf
  · intro ls v hls hv
    cases hls
    simp [get_db_path_from_connection_file, hv]

/-- Witness for C5: a relative captured value is made absolute against the
current working directory. -/
theorem resolver_spec_witness :
    get_db_path_from_connection_file "/a" (some ["junk", "# File path: rel.db"])
      = Except.ok "/a/rel.db" :=
  ((resolver_spec "/a" (some ["junk", "# File path: rel.db"])).2
    ["junk", "# File path: rel.db"] "rel.db" rfl rfl).trans rfl

/-- C6: when the reference file is absent the resolver's failure is caught,
the path falls back to the default filename made absolute against the
current working directory, the run completes, and the reference file is
rewritten with content containing a line matching
`# File path: <resolved path>`. -/
theorem fallback_rewrites_reference_file (w : World)
    (h : w.connFileContent = none) :
    mainModel w ⟨false, false, false⟩ = Except.ok
      { w with
          db := initDB w.db
          envFileContent := some (envFileLines (abspath w.cwd DB_NAME_FALLBACK))
          connFileContent := some (connFileLines (abspath w.cwd DB_NAME_FALLBACK)) } ∧
    ("# File path: " ++ abspath w.cwd DB_NAME_FALLBACK)
      ∈ connFileLines (abspath w.cwd DB_NAME_FALLBACK) ∧
    lineMatches ("# File path: " ++ abspath w.cwd DB_NAME_FALLBACK) = true := by
  have hr : resolveDbPath w = (abspath w.cwd DB_NAME_FALLBACK, true) := by
    simp [resolveDbPath, get_db_path_from_connection_file, h]
  refine ⟨?_, ?_, ?_⟩
  · simp [mainModel, hr]
  · simp [connFileLines]
  · exact lineMatches_marker_append _

/-- Witness for C6 on a fresh clone. -/
theorem fallback_rewrites_reference_file_witness :
    mainModel sampleWorldNoRef ⟨false, false, false⟩ = Except.ok
      { sampleWorldNoRef with
          db := initDB sampleWorldNoRef.db
          envFileContent := some (envFileLines
            (abspath sampleWorldNoRef.cwd DB_NAME_FALLBACK))
          connFileContent := some (connFileLines
            (abspath sampleWorldNoRef.cwd DB_NAME_FALLBACK)) } ∧
    ("# File path: " ++ abspath sampleWorldNoRef.cwd DB_NAME_FALLBACK)
      ∈ connFileLines (abspath sampleWorldNoRef.cwd DB_NAME_FALLBACK) ∧
    lineMatches ("# File path: "
      ++ abspath sampleWorldNoRef.cwd DB_NAME_FALLBACK) = true :=
  fallback_rewrites_reference_file sampleWorldNoRef rfl

/-- C7: whenever resolution from the reference file succeeds, the resolver
returned the absolute form of the captured value and the orchestrator never
writes the reference file: its content is unchanged on every exit path. -/
theorem resolved_path_skips_reference_rewrite (w : World) (p : String)
    (h : get_db_path_from_connection_file w.cwd w.connFileContent
      = Except.ok p) :
    (∀ fl : FsFaults,
      (match mainModel w fl with
        | Except.ok w' => w'.connFileContent
        | Except.error w' => w'.connFileContent) = w.connFileContent) ∧
    mainModel w ⟨false, false, false⟩ = Except.ok
      { w with
          db := initDB w.db
          envFileContent := some (envFileLines p) } ∧
    (∀ ls v, w.connFileContent = some ls → findFilePathLine ls = some v →
      p = abspath w.cwd v) := by
  have hr : resolveDbPath w = (p, false) := by
    simp [resolveDbPath, h]
  refine ⟨?_, ?_, ?_⟩
  · intro fl
    by_cases h1 : (fl.mkdirFails || fl.envWriteFails) = true
    · simp [mainModel, hr, h1]
    · simp [mainModel, hr, h1]
  · simp [mainModel, hr]
  · intro ls v hls hv
    rw [hls] at h
    simp [get_db_path_from_connection_file, hv] at h
    exact h.symm

/-- Witness for C7 with an absolute custom path in the reference file. -/
theorem resolved_path_skips_reference_rewrite_witness :
    (match mainModel sampleWorldCustomRef ⟨true, false, false⟩ with
      | Except.ok w' => w'.connFileContent
      | Except.error w' => w'.connFileContent)
      = sampleWorldCustomRef.connFileContent ∧
    mainModel sampleWorldCustomRef ⟨false, false, false⟩ = Except.ok
      { sampleWorldCustomRef with
          db := initDB sampleWorldCustomRef.db
          envFileContent := some (envFileLines "/tmp/x/custom.db") } ∧
    "/tmp/x/custom.db" = abspath sampleWorldCustomRef.cwd "/tmp/x/custom.db" :=
  ⟨(resolved_path_skips_reference_rewrite sampleWorldCustomRef
      "/tmp/x/custom.db" rfl).1 ⟨true, false, false⟩,
   (resolved_path_skips_reference_rewrite sampleWorldCustomRef
      "/tmp/x/custom.db" rfl).2.1,
   (resolved_path_skips_reference_rewrite sampleWorldCustomRef
      "/tmp/x/custom.db" rfl).2.2 ["# File path: /tmp/x/custom.db"]
      "/tmp/x/custom.db" rfl rfl⟩

/-- C8: after every successful run, whatever the prior content of the
environment file and whatever faults were survivable, the environment file
holds exactly one line, `export SQLITE_DB="<resolved path>"`. -/
theorem env_file_single_line (w : World) (fl : FsFaults) (w' : World)
    (h : mainModel w fl = Except.ok w') :
    w'.envFileContent
      = some ["export SQLITE_DB=\"" ++ (resolveDbPath w).1 ++ "\""] := by
  unfold mainModel at h
  by_cases h1 : (fl.mkdirFails || fl.envWriteFails) = true
  · rw [if_pos h1] at h
    cases h
  · rw [if_neg h1] at h
    by_cases h2 : ((resolveDbPath w).2 && !fl.refWriteFails) = true
    · rw [if_pos h2] at h
      cases h
      rfl
    · rw [if_neg h2] at h
      cases h
      rfl

/-- Witness for C8 after a fault-free run on a fresh clone. -/
theorem env_file_single_line_witness :
    sampleWorldNoRefDone.envFileContent
      = some ["export SQLITE_DB=\""
        ++ (resolveDbPath sampleWorldNoRef).1 ++ "\""] :=
  env_file_single_line sampleWorldNoRef ⟨false, false, false⟩
    sampleWorldNoRefDone rfl

/-- C9 counterexample: a directory-creation or environment-file write
failure after the commit is NOT merely a warning — `_write_visualizer_env`
is called outside any `try`/`except` (line 348), so the run aborts. -/
theorem env_write_failure_aborts :
    (mainModel sampleWorldNoRef ⟨false, true, false⟩).isOk = false ∧
    (mainModel sampleWorldNoRef ⟨true, false, false⟩).isOk = false :=
  ⟨rfl, rfl⟩

/-- C9 (amended): after the commit, the committed database work is
unaffected by any filesystem fault on every exit path, and only the
reference-file write failure is downgraded to a warning — with
directory creation and the environment-file write succeeding, the run
completes normally whether or not the reference-file write fails. -/
theorem post_commit_fs_error_policy (w : World) (fl : FsFaults) :
    ((match mainModel w fl with
      | Except.ok w' => w'.db
      | Except.error w' => w'.db) = initDB w.db) ∧
    (fl.mkdirFails = false → fl.envWriteFails = false →
      ∃ w', mainModel w fl = Except.ok w') := by
  constructor
  · by_cases h1 : (fl.mkdirFails || fl.envWriteFails) = true
    · simp [mainModel, h1]
    · by_cases h2 : ((resolveDbPath w).2 && !fl.refWriteFails) = true
      · simp [mainModel, h1, h2]
      · simp [mainModel, h1, h2]
  · intro hm he
    by_cases h2 : ((resolveDbPath w).2 && !fl.refWriteFails) = true
    · exact ⟨{ w with
          db := initDB w.db
          envFileContent := some (envFileLines (resolveDbPath w).1)
          connFileContent := some (connFileLines (resolveDbPath w).1) },
        by simp [mainModel, hm, he, h2]⟩
    · exact ⟨{ w with
          db := initDB w.db
          envFileContent := some (envFileLines (resolveDbPath w).1) },
        by simp [mainModel, hm, he, h2]⟩

/-- Witness for the amended C9: a reference-file write failure on a fresh
clone still completes, with the database seeded. -/
theorem post_commit_fs_error_policy_witness :
    ((match mainModel sampleWorldNoRef ⟨false, false, true⟩ with
      | Except.ok w' => w'.db
      | Except.error w' => w'.db) = initDB sampleWorldNoRef.db) ∧
    ((⟨false, false, true⟩ : FsFaults).mkdirFails = false →
      (⟨false, false, true⟩ : FsFaults).envWriteFails = false →
      ∃ w', mainModel sampleWorldNoRef ⟨false, false, true⟩ = Except.ok w') :=
  post_commit_fs_error_policy sampleWorldNoRef ⟨false, false, true⟩

/-- C10: with several matching lines in the reference file, the resolver
uses the first one: it returns the absolute form of that line's captured
value (whitespace-stripped), ignoring all later matching lines. -/
theorem first_matching_line_wins (cwd : String) (ls : List String)
    (a b : String) (t : List String)
    (h : ls.filter lineMatches = a :: b :: t) :
    get_db_path_from_connection_file cwd (some ls)
      = Except.ok (abspath cwd (lineCapture a)) := by
  have hf : ls.find? lineMatches = some a :=
    find?_eq_head_of_filter _ _ _ _ h
  simp [get_db_path_from_connection_file, findFilePathLine, hf]

/-- Witness for C10: two matching lines, the first (with padded
whitespace) wins and is stripped. -/
theorem first_matching_line_wins_witness :
    get_db_path_from_connection_file "/a"
      (some ["junk", "# File path:  b.db ", "# File path: c.db"])
      = Except.ok "/a/b.db" :=
  (first_matching_line_wins "/a"
    ["junk", "# File path:  b.db ", "# File path: c.db"]
    "# File path:  b.db " "# File path: c.db" [] (by decide)).trans rfl
